import Mathlib

/-!
Shallow embedding of the Meshtastic Telegram gateway core (mesh.py):
the relay router (`MeshtasticBot.on_receive`), the in-band command
processor (`/distance`, `/ping`, unknown), the persistence layer
(`MeshtasticDB.get_node_record`, `store_message`, `store_location`),
and the geo utility (`get_lat_lon_distance`).

Modelling conventions:
- Python `dict.get(k)` on possibly-missing keys is modelled by `Option`
  fields; `dict.get(k, default)` by `Option.getD`.
- Calling `.get` on `None` raises `AttributeError` in Python; the
  embedding returns `Except PyErr` and this is the only error source.
- A Python sub-dict that the source tests for truthiness (`if not
  position`, `if not user`) is modelled by a structure carrying a
  `truthy` flag (Python dict truthiness = non-emptiness) next to the
  keys the source reads.
- `datetime` values are modelled by their epoch timestamp as a rational;
  `datetime.fromtimestamp` is then the identity (injective, monotone).
- `time.time()` (the wall clock at the moment of the call) is passed in
  explicitly as a `now` argument.
- The external `haversine.haversine` library call is injected as a
  function argument (`hav` over numeric coordinates for the command
  path; `lib` over raw tuple elements for the geo-utility model), so
  theorems hold for every behaviour of the external library.
- Outbound I/O (`interface.sendText`, `interface.sendData`,
  `telegram send_message`) is reified as a list of `Effect`s.
-/

namespace MeshGateway

/-- Python `"%s" % x` rendering of an optional string: `None` prints as
the literal string "None". -/
def pyStrOpt : Option String → String
  | none => "None"
  | some s => s

/-- Python truthiness of an optional numeric value: `None`, `0` and
`0.0` are falsy, everything else truthy. -/
def pyTruthyQ : Option ℚ → Bool
  | none => false
  | some q => if q = 0 then false else true

/-- The `user` sub-dict of a live snapshot entry: the keys the source
reads, plus Python dict truthiness. -/
structure UserDict where
  truthy : Bool := true
  id : Option String := none
  longName : Option String := none
  hwModel : Option String := none
deriving DecidableEq

/-- The empty dict `{}` used as `.get('user', {})` default: falsy, no keys. -/
def emptyUser : UserDict :=
  { truthy := false }

/-- The `position` sub-dict of a snapshot entry or decoded payload. -/
structure PosDict where
  truthy : Bool := true
  latitude : Option ℚ := none
  longitude : Option ℚ := none
  altitude : Option ℚ := none
  batteryLevel : Option ℚ := none
deriving DecidableEq

/-- The empty dict `{}` used as `.get('position', {})` default. -/
def emptyPos : PosDict :=
  { truthy := false }

/-- One entry of the live node snapshot (`interface.nodes[nodeId]`). -/
structure NodeInfo where
  user : Option UserDict := none
  position : Option PosDict := none
  lastHeard : Option ℚ := none
deriving DecidableEq

/-- The live node snapshot `interface.nodes`, keyed by node id. -/
abbrev Snapshot := List (String × NodeInfo)

/-- The `decoded` payload of an inbound packet. -/
structure Decoded where
  portnum : Option String := none
  text : Option String := none
  position : Option PosDict := none
deriving DecidableEq

/-- An inbound mesh packet as delivered to `on_receive`. -/
structure Packet where
  toId : Option String := none
  fromId : Option String := none
  decoded : Option Decoded := none
  rxSnr : Option ℚ := none
deriving DecidableEq

/-- The `MeshtasticNodeRecord` DB entity (nodeId is the primary key). -/
structure MeshtasticNodeRecord where
  nodeId : String
  nodeName : String
  lastHeard : ℚ
  hwModel : String
deriving DecidableEq

/-- The `MeshtasticMessageRecord` DB entity; `node` holds the primary key of
the linked node record. -/
structure MeshtasticMessageRecord where
  datetime : ℚ
  message : String
  node : Option String
deriving DecidableEq

/-- The `MeshtasticLocationRecord` DB entity. -/
structure MeshtasticLocationRecord where
  datetime : ℚ
  altitude : ℚ
  batteryLevel : ℚ
  latitude : ℚ
  longitude : ℚ
  rxSnr : ℚ
  node : Option String
deriving DecidableEq

/-- The persistent store backing `MeshtasticDB`. -/
structure DBState where
  nodes : List MeshtasticNodeRecord := []
  messages : List MeshtasticMessageRecord := []
  locations : List MeshtasticLocationRecord := []
deriving DecidableEq

/-- The empty database. -/
def emptyDB : DBState :=
  {}

/-- Python exceptions the embedded code can raise. -/
inductive PyErr where
  | attributeError
deriving DecidableEq

/-- Embedding of `datetime.fromtimestamp`, with datetimes modelled by their epoch
timestamp: the identity map (injective and strictly monotone, which is
all the source relies on). -/
def datetime_fromtimestamp (t : ℚ) : ℚ :=
  t

/-- Embedding of `node_info.get('user', {})`. -/
def userGetD (u : Option UserDict) : UserDict :=
  u.getD emptyUser

/-- Embedding of `node_info.get('position', {})`. -/
def posGetD (p : Option PosDict) : PosDict :=
  p.getD emptyPos

/-- Embedding of `interface.nodes.get(key)` where `key` may be Python `None`
(`None` is never a dict key here, so the lookup misses). -/
def nodesGet (snap : Snapshot) (key : Option String) : Option NodeInfo :=
  key.bind (fun k => List.lookup k snap)

/-- Embedding of `MeshtasticDB.get_node_record` (mesh.py lines 450-472).
Reads the snapshot entry for `node_id`; raises `AttributeError` when the
sender is absent from the snapshot (`node_info` is `None` and the source
calls `.get` on it). Otherwise creates the node record on first sight,
or unconditionally overwrites `lastHeard` on an existing record.
Returns the resulting store and the touched record. -/
def get_node_record (snap : Snapshot) (db : DBState) (node_id : Option String) :
    Except PyErr (DBState × MeshtasticNodeRecord) :=
  match node_id, nodesGet snap node_id with
  | some nid, some node_info =>
    let node_record := db.nodes.find? (fun n => n.nodeId == nid)
    let last_heard := datetime_fromtimestamp (node_info.lastHeard.getD 0)
    match node_record with
    | none =>
      let created : MeshtasticNodeRecord :=
        { nodeId := nid
          nodeName := ((userGetD node_info.user).longName).getD ""
          lastHeard := last_heard
          hwModel := ((userGetD node_info.user).hwModel).getD "" }
      .ok ({ db with nodes := db.nodes ++ [created] }, created)
    | some rec0 =>
      let updated : MeshtasticNodeRecord := { rec0 with lastHeard := last_heard }
      .ok ({ db with nodes := db.nodes.map (fun n => if n.nodeId == nid then updated else n) },
           updated)
  | _, _ => .error .attributeError

/-- Embedding of `MeshtasticDB.store_message` (mesh.py lines 474-491).
`now` is the value of `time.time()` at the moment of the write. -/
def store_message (snap : Snapshot) (db : DBState) (now : ℚ) (packet : Packet) :
    Except PyErr DBState := do
  let from_id := packet.fromId
  let (db1, node_record) ← get_node_record snap db from_id
  match packet.decoded with
  | none => .error .attributeError
  | some decoded =>
    let message := decoded.text.getD ""
    .ok { db1 with
          messages := db1.messages ++
            [{ datetime := datetime_fromtimestamp now
               message := message
               node := some node_record.nodeId }] }

/-- Embedding of `MeshtasticDB.store_location` (mesh.py lines 493-514).
`now` is the value of `time.time()` at the moment of the write. -/
def store_location (snap : Snapshot) (db : DBState) (now : ℚ) (packet : Packet) :
    Except PyErr DBState := do
  let from_id := packet.fromId
  let (db1, node_record) ← get_node_record snap db from_id
  let position := posGetD (packet.decoded.bind (fun d => d.position))
  .ok { db1 with
        locations := db1.locations ++
          [{ datetime := datetime_fromtimestamp now
             altitude := position.altitude.getD 0
             batteryLevel := position.batteryLevel.getD 100
             latitude := position.latitude.getD 0
             longitude := position.longitude.getD 0
             rxSnr := packet.rxSnr.getD 0
             node := some node_record.nodeId }] }

/-- A Python value as passed to `get_lat_lon_distance`: relevant shape
is whether it is a tuple, and for tuples which elements are numeric. -/
inductive PyNum where
  | num (q : ℚ)
  | other
deriving DecidableEq

/-- Argument shape for the geo utility: a tuple of elements, or any
non-tuple value. -/
inductive PyObj where
  | tuple (elems : List PyNum)
  | nontuple
deriving DecidableEq

/-- Failure modes of the geo utility: the function's own `RuntimeError`
checks (one per argument), or a failure inside the external haversine
library call. -/
inductive GeoErr where
  | tupleExpected1
  | tupleExpected2
  | libErr
deriving DecidableEq

/-- Is the Python value a tuple (of any arity and content)? -/
def isTuple : PyObj → Bool
  | .tuple _ => true
  | .nontuple => false

/-- Is the Python value a two-element numeric (latitude, longitude)
pair, as the spec's `InvalidArgument` contract demands? -/
def isCoordPair : PyObj → Bool
  | .tuple es =>
    match es with
    | [.num _, .num _] => true
    | _ => false
  | .nontuple => false

/-- Embedding of `get_lat_lon_distance` (mesh.py lines 44-56). `lib` models the
external `haversine.haversine(_, _, unit=METERS)` call, which may itself
fail on malformed tuples; the function's own validation raises
`RuntimeError` exactly when an argument is not a tuple, and performs no
side effects. -/
def get_lat_lon_distance (lib : List PyNum → List PyNum → Except Unit ℚ)
    (latlon1 latlon2 : PyObj) : Except GeoErr ℚ :=
  match latlon1 with
  | .nontuple => .error .tupleExpected1
  | .tuple e1 =>
    match latlon2 with
    | .nontuple => .error .tupleExpected2
    | .tuple e2 =>
      match lib e1 e2 with
      | .ok d => .ok d
      | .error _ => .error .libErr

/-- Python 3 `round` to an integer: round-half-to-even. -/
def pyRound (q : ℚ) : ℤ :=
  let f := ⌊q⌋
  let r := q - f
  if r < 1 / 2 then f
  else if 1 / 2 < r then f + 1
  else if f % 2 = 0 then f else f + 1

/-- Split a (reversed) digit list into groups of three. -/
def chunk3 : List Char → List (List Char)
  | [] => []
  | [a] => [[a]]
  | [a, b] => [[a, b]]
  | a :: b :: c :: rest => [a, b, c] :: chunk3 rest

/-- Embedding of `humanize.intcomma` on an integer: decimal rendering with
thousands separators. -/
def intcomma (n : ℤ) : String :=
  let digits := (toString n.natAbs).toList
  let grouped := ((chunk3 digits.reverse).map List.reverse).reverse
  let body := String.mk (List.intercalate [','] grouped)
  if n < 0 then "-" ++ body else body

/-- Python `str.startswith`: prefix test on the character sequence
(structural, so it evaluates by definitional unfolding). -/
def pyStartsWith (s pre : String) : Bool :=
  pre.toList.isPrefixOf s.toList

/-- One reified outbound action of the gateway: a radio text send
(`interface.send_text(text, destinationId=...)`), a raw data send
(`interface.sendData(...)`), or a chat-service send
(`telegram_connection.send_message(chat_id=..., text=...)`). -/
inductive Effect where
  | sendText (text : String) (destinationId : Option String)
  | sendData (payload : String) (destinationId : String) (portNum : String)
      (wantAck : Bool) (wantResponse : Bool)
  | telegramSend (chatId : String) (text : String)
deriving DecidableEq

/-- The constant `meshtastic.BROADCAST_ADDR`. -/
def MESHTASTIC_BROADCAST_ADDR : String :=
  "^all"

/-- The body of the peer loop of `process_distance_command` (mesh.py
lines 563-582) for one snapshot key: `some effect` when a reply line is
sent for this peer, `none` when the peer is skipped. `hav` is the
external haversine library on numeric coordinate pairs (the only shape
this call site ever builds). -/
def distance_loop_body (hav : ℚ → ℚ → ℚ → ℚ → ℚ) (snap : Snapshot)
    (from_id : Option String) (my_latitude my_longitude : ℚ) (node : String) :
    Option Effect :=
  match List.lookup node snap with
  | none => none
  | some node_info =>
    let position := posGetD node_info.position
    if position.truthy = false then none
    else
      let latitude := position.latitude
      let longitude := position.longitude
      if !(pyTruthyQ latitude && pyTruthyQ longitude) then none
      else
        let user := userGetD node_info.user
        if user.truthy = false then none
        else
          let node_id := user.id.getD ""
          if from_id == some node_id then none
          else
            let long_name := user.longName.getD ""
            let distance :=
              pyRound (hav my_latitude my_longitude (latitude.getD 0) (longitude.getD 0))
            some (.sendText (long_name ++ ": " ++ intcomma distance ++ "m") from_id)

/-- Embedding of `MeshtasticBot.process_distance_command` (mesh.py lines 540-582). -/
def process_distance_command (hav : ℚ → ℚ → ℚ → ℚ → ℚ) (snap : Snapshot)
    (packet : Packet) : List Effect :=
  let from_id := packet.fromId
  match nodesGet snap from_id with
  | none => [.sendText "distance err: no node info" from_id]
  | some mynode_info =>
    let position := posGetD mynode_info.position
    if position.truthy = false then [.sendText "distance err: no position" from_id]
    else
      let my_latitude := position.latitude
      let my_longitude := position.longitude
      if !(pyTruthyQ my_latitude && pyTruthyQ my_longitude) then
        [.sendText "distance err: no lat/lon" from_id]
      else
        (snap.map Prod.fst).filterMap
          (distance_loop_body hav snap from_id (my_latitude.getD 0) (my_longitude.getD 0))

/-- Embedding of `MeshtasticBot.process_ping_command` (mesh.py lines 584-597): the
probe payload is sent via `sendData` to `MESHTASTIC_BROADCAST_ADDR` on
the REPLY_APP port with `wantAck=True, wantResponse=True`; the incoming
packet is ignored. -/
def process_ping_command : List Effect :=
  [.sendData "test string" MESHTASTIC_BROADCAST_ADDR "REPLY_APP" true true]

/-- Embedding of `MeshtasticBot.process_meshtastic_command` (mesh.py lines 599-616):
prefix dispatch over `/distance`, `/ping`, else a private "unknown
command" reply to the sender. Raises `AttributeError` when the packet
has no decoded payload (`decoded.get('text', '')` on `None`). -/
def process_meshtastic_command (hav : ℚ → ℚ → ℚ → ℚ → ℚ) (snap : Snapshot)
    (packet : Packet) : Except PyErr (List Effect) :=
  match packet.decoded with
  | none => .error .attributeError
  | some decoded =>
    let from_id := packet.fromId
    let msg := decoded.text.getD ""
    if pyStartsWith msg "/distance" then .ok (process_distance_command hav snap packet)
    else if pyStartsWith msg "/ping" then .ok process_ping_command
    else .ok [.sendText "unknown command" from_id]

/-- Embedding of `MeshtasticBot.on_receive` (mesh.py lines 618-653): the relay
router. Returns the updated store and the outbound effects, or the
Python exception that escapes the handler. `meshtastic_room` is
`config.meshtastic_room`; `now` is the wall clock. -/
def on_receive (hav : ℚ → ℚ → ℚ → ℚ → ℚ) (meshtastic_room : String)
    (snap : Snapshot) (db : DBState) (now : ℚ) (packet : Packet) :
    Except PyErr (DBState × List Effect) :=
  if packet.toId != some "^all" then .ok (db, [])
  else
    match packet.decoded with
    | none => .error .attributeError
    | some decoded =>
      let from_id := packet.fromId
      if decoded.portnum != some "TEXT_MESSAGE_APP" then
        if decoded.portnum == some "POSITION_APP" then do
          let db1 ← store_location snap db now packet
          .ok (db1, [])
        else .ok (db, [])
      else do
        let db1 ← store_message snap db now packet
        let long_name ←
          match nodesGet snap from_id with
          | none => Except.ok from_id
          | some node_info =>
            match node_info.user with
            | none => Except.error PyErr.attributeError
            | some user_info => Except.ok user_info.longName
        let msg := decoded.text.getD ""
        if pyStartsWith msg "/" then do
          let effects ← process_meshtastic_command hav snap packet
          .ok (db1, effects)
        else
          .ok (db1, [.telegramSend meshtastic_room (pyStrOpt long_name ++ ": " ++ msg)])

/-! ## Concrete inputs used by witnesses and counterexamples -/

/-- A stand-in behaviour for the external haversine library on numeric
coordinates (theorems about routing and destinations hold for any). -/
def hav0 : ℚ → ℚ → ℚ → ℚ → ℚ :=
  fun _ _ _ _ => 0

/-- A stand-in behaviour for the external haversine library on raw
tuple elements that always succeeds. -/
def libHav0 : List PyNum → List PyNum → Except Unit ℚ :=
  fun _ _ => .ok 0

/-- A stand-in external haversine library that fails (as tuple
unpacking in the real library does) unless both tuples have exactly
two elements. -/
def libStrict : List PyNum → List PyNum → Except Unit ℚ :=
  fun e1 e2 => if e1.length == 2 && e2.length == 2 then .ok 0 else .error ()

/-- The spec scenario packet: broadcast text "hello" from "!abc". -/
def packetHello : Packet :=
  { toId := some "^all"
    fromId := some "!abc"
    decoded := some { portnum := some "TEXT_MESSAGE_APP", text := some "hello" } }

/-- A broadcast packet with no `decoded` payload at all. -/
def packetNoDecoded : Packet :=
  { toId := some "^all" }

/-- A broadcast text packet from "!n1". -/
def packetFromN1 : Packet :=
  { toId := some "^all"
    fromId := some "!n1"
    decoded := some { portnum := some "TEXT_MESSAGE_APP", text := some "hi" } }

/-- A snapshot whose entry for "!n1" lacks the `user` key. -/
def snapUserless : Snapshot :=
  [("!n1", { lastHeard := some 5, user := none })]

/-- A snapshot resolving "!abc" (reported lastHeard 1000). -/
def snapAbc : Snapshot :=
  [("!abc", { lastHeard := some 1000
              user := some { id := some "!abc", longName := some "Abc" } })]

/-- A broadcast "/ping" text packet from "!abc". -/
def packetPing : Packet :=
  { toId := some "^all"
    fromId := some "!abc"
    decoded := some { portnum := some "TEXT_MESSAGE_APP", text := some "/ping" } }

/-- A broadcast "/x" text packet from "!abc" (unknown command). -/
def packetUnknown : Packet :=
  { toId := some "^all"
    fromId := some "!abc"
    decoded := some { portnum := some "TEXT_MESSAGE_APP", text := some "/x" } }

/-- A broadcast "/distance please" text packet from "!abc". -/
def packetDist : Packet :=
  { toId := some "^all"
    fromId := some "!abc"
    decoded := some { portnum := some "TEXT_MESSAGE_APP", text := some "/distance please" } }

/-- A store holding one record for "n1" created as Alice/TBEAM at
time 100. -/
def dbAlice : DBState :=
  { nodes := [{ nodeId := "n1", nodeName := "Alice", lastHeard := 100, hwModel := "TBEAM" }] }

/-- A snapshot entry for "n1" now reporting Bob/TLORA at time 200. -/
def snapBob : Snapshot :=
  [("n1", { lastHeard := some 200
            user := some { id := some "n1", longName := some "Bob", hwModel := some "TLORA" } })]

/-- A snapshot entry for "n1" reporting a time (50) earlier than the
stored record of `dbAlice` (100). -/
def snapN1old : Snapshot :=
  [("n1", { lastHeard := some 50 })]

/-- Snapshot entry of a requester "!abc" that has a position with
nonzero coordinates and a user record whose id equals the sender id. -/
def niSelf : NodeInfo :=
  { user := some { id := some "!abc", longName := some "Abc" }
    position := some { latitude := some 1, longitude := some 2 } }

/-- A snapshot containing only the requester. -/
def snapSelf : Snapshot :=
  [("!abc", niSelf)]

/-- A Python tuple of three numbers (not a coordinate pair). -/
def tripleTuple : PyObj :=
  .tuple [.num 0, .num 0, .num 0]

/-- A Python tuple of two numbers (a valid coordinate pair). -/
def pairTuple : PyObj :=
  .tuple [.num 0, .num 0]

/-! ## Derived predicates -/

/-- Does the effect conform to the reply-destination discipline the
code actually implements: radio text replies go to the sender, the ping
probe goes to the broadcast address with ack requested, and no command
path ever reaches the chat service? -/
def replyOk (from_id : Option String) : Effect → Bool
  | .sendText _ d => d == from_id
  | .sendData _ dst _ ack _ => dst == MESHTASTIC_BROADCAST_ADDR && ack
  | .telegramSend _ _ => false

/-- Is the effect anything other than a chat-service send? -/
def noTelegram : Effect → Bool
  | .telegramSend _ _ => false
  | _ => true

/-- Does this snapshot entry qualify as a `/distance` peer for sender
`from_id`: truthy position, nonzero latitude and longitude, truthy user
record, and a user id different from the sender (mirrors the skip
conditions of the peer loop)? -/
def qualifiesPeer (from_id : Option String) (ni : NodeInfo) : Bool :=
  (posGetD ni.position).truthy &&
  (pyTruthyQ (posGetD ni.position).latitude && pyTruthyQ (posGetD ni.position).longitude) &&
  (userGetD ni.user).truthy &&
  !(from_id == some ((userGetD ni.user).id.getD ""))

/-! ## Shared helper lemmas -/

/-- On an existing record, `get_node_record` rewrites the store entry
to the old record with only `lastHeard` replaced. -/
theorem get_node_record_existing_eq (snap : Snapshot) (db : DBState) (nid : String)
    (rec0 : MeshtasticNodeRecord) (ni : NodeInfo)
    (hfind : db.nodes.find? (fun n => n.nodeId == nid) = some rec0)
    (hsnap : List.lookup nid snap = some ni) :
    get_node_record snap db (some nid) =
      .ok ({ db with nodes := db.nodes.map (fun n => if n.nodeId == nid
                 then { rec0 with lastHeard := datetime_fromtimestamp (ni.lastHeard.getD 0) }
                 else n) },
           { rec0 with lastHeard := datetime_fromtimestamp (ni.lastHeard.getD 0) }) := by
  unfold get_node_record nodesGet
  simp only [Option.bind_eq_bind, Option.some_bind, hsnap, hfind]

/-- Lemma: `get_node_record` never touches the message or location tables. -/
theorem get_node_record_frame (snap : Snapshot) (db : DBState) (node_id : Option String)
    (db1 : DBState) (rec1 : MeshtasticNodeRecord)
    (h : get_node_record snap db node_id = .ok (db1, rec1)) :
    db1.messages = db.messages ∧ db1.locations = db.locations := by
  unfold get_node_record at h
  split at h
  · dsimp only at h
    split at h <;> (cases h; exact ⟨rfl, rfl⟩)
  · cases h

/-- Whatever branch it takes, `get_node_record` returns a record whose
`lastHeard` is the snapshot-supplied time. -/
theorem get_node_record_lastHeard_eq (snap : Snapshot) (db : DBState) (nid : String)
    (ni : NodeInfo) (db1 : DBState) (rec1 : MeshtasticNodeRecord)
    (hsnap : List.lookup nid snap = some ni)
    (h : get_node_record snap db (some nid) = .ok (db1, rec1)) :
    rec1.lastHeard = datetime_fromtimestamp (ni.lastHeard.getD 0) := by
  unfold get_node_record nodesGet at h
  simp only [Option.bind_eq_bind, Option.some_bind, hsnap] at h
  split at h <;> cases h <;> rfl

/-- Every effect emitted by the `/distance` peer loop body is a radio
text reply addressed to the requester. -/
theorem distance_loop_body_shape (hav : ℚ → ℚ → ℚ → ℚ → ℚ) (snap : Snapshot)
    (from_id : Option String) (a b : ℚ) (k : String) (e : Effect)
    (h : distance_loop_body hav snap from_id a b k = some e) :
    ∃ s, e = .sendText s from_id := by
  unfold distance_loop_body at h
  split at h
  · cases h
  · dsimp only at h
    split at h
    · cases h
    · split at h
      · cases h
      · split at h
        · cases h
        · split at h
          · cases h
          · exact ⟨_, (Option.some.inj h).symm⟩

/-- Every effect emitted by `process_distance_command` is a radio text
reply addressed to the requester. -/
theorem process_distance_effects (hav : ℚ → ℚ → ℚ → ℚ → ℚ) (snap : Snapshot)
    (p : Packet) :
    ∀ e ∈ process_distance_command hav snap p, ∃ s, e = .sendText s p.fromId := by
  intro e he
  unfold process_distance_command at he
  dsimp only at he
  split at he
  · simp at he; exact ⟨_, he⟩
  · split at he
    · simp at he; exact ⟨_, he⟩
    · split at he
      · simp at he; exact ⟨_, he⟩
      · rcases List.mem_filterMap.mp he with ⟨k, _, hk⟩
        exact distance_loop_body_shape hav snap p.fromId _ _ k e hk

/-- The peer loop body skips every snapshot entry that does not qualify
as a peer of `from_id`. -/
theorem distance_loop_body_none_of_not_qualifies (hav : ℚ → ℚ → ℚ → ℚ → ℚ)
    (snap : Snapshot) (from_id : Option String) (a b : ℚ) (k : String)
    (hq : ∀ ni2, List.lookup k snap = some ni2 → qualifiesPeer from_id ni2 = false) :
    distance_loop_body hav snap from_id a b k = none := by
  unfold distance_loop_body
  split
  · rfl
  · rename_i ni2 hl
    have h := hq ni2 hl
    unfold qualifiesPeer at h
    dsimp only
    split
    · rfl
    · split
      · rfl
      · split
        · rfl
        · split
          · rfl
          · exfalso
            simp_all

/-- No command path ever produces a chat-service send. -/
theorem pmc_no_telegram (hav : ℚ → ℚ → ℚ → ℚ → ℚ) (snap : Snapshot) (p : Packet)
    (effs : List Effect) (h : process_meshtastic_command hav snap p = .ok effs) :
    effs.all noTelegram = true := by
  unfold process_meshtastic_command at h
  split at h
  · cases h
  · dsimp only at h
    rw [List.all_eq_true]
    split at h
    · cases h
      intro e he
      rcases process_distance_effects hav snap p e he with ⟨s, rfl⟩
      rfl
    · split at h
      · cases h
        intro e he
        simp only [process_ping_command, List.mem_singleton] at he
        subst he; rfl
      · cases h
        intro e he
        simp only [List.mem_singleton] at he
        subst he; rfl

/-! ## Claim theorems -/

/-- C1: the spec claims `on_receive` degrades to a logged no-op on
packets with missing decoded fields and never lets an exception escape.
The code violates this: a broadcast packet without a `decoded` payload
raises `AttributeError` (`decoded.get('portnum')` on `None`, mesh.py
line 632), and a broadcast text packet whose sender snapshot entry
lacks a `user` field raises `AttributeError` (`user_info.get('longName')`
on `None`, mesh.py line 647). This theorem evaluates the router at both
failing inputs. -/
theorem c1_on_receive_exception_escapes :
    on_receive hav0 "room" [] emptyDB 0 packetNoDecoded = .error .attributeError ∧
    on_receive hav0 "room" snapUserless emptyDB 0 packetFromN1 = .error .attributeError :=
  ⟨rfl, rfl⟩

/-- C2: the spec scenario claims the broadcast text packet
`{from:"!abc", to:"^all", text:"hello"}` with the sender unresolved in
the live snapshot yields one MessageRecord and one chat send
"!abc: hello". The code instead raises `AttributeError` inside
`get_node_record` (`node_info.get('lastHeard', 0)` with
`interface.nodes.get("!abc")` being `None`, mesh.py line 460), so no
record is created and no chat send happens. -/
theorem c2_scenario_crashes_on_unresolved_sender :
    on_receive hav0 "room" [] emptyDB 0 packetHello = .error .attributeError :=
  rfl

/-- C3: a packet whose destination id differs from the broadcast
address "^all" is discarded immediately: the store is returned
unchanged and no effects (no chat send, no radio send) are produced
(mesh.py lines 627-629). -/
theorem c3_nonbroadcast_packet_is_noop (hav : ℚ → ℚ → ℚ → ℚ → ℚ)
    (room : String) (snap : Snapshot) (db : DBState) (now : ℚ) (p : Packet)
    (h : p.toId ≠ some "^all") :
    on_receive hav room snap db now p = .ok (db, []) := by
  have hb : (p.toId != some "^all") = true := by
    simp only [bne_iff_ne, ne_eq]
    exact h
  unfold on_receive
  rw [hb]
  simp

/-- C3 witness: a concrete node-to-node packet is a no-op. -/
theorem c3_nonbroadcast_packet_is_noop_witness :
    on_receive hav0 "room" [] emptyDB 0 { toId := some "!x" } = .ok (emptyDB, []) :=
  c3_nonbroadcast_packet_is_noop hav0 "room" [] emptyDB 0 { toId := some "!x" } (by decide)

/-- C4: an upsert on a node id that already has a directory record
changes only `lastHeard`: the result is the old record with `lastHeard`
replaced, whatever display name, time, or hardware model the snapshot
supplies, and the message/location tables are untouched (mesh.py lines
461-472, the existing-record branch never assigns `nodeName`/`hwModel`). -/
theorem c4_upsert_existing_changes_only_lastHeard (snap : Snapshot) (db : DBState)
    (nid : String) (rec0 : MeshtasticNodeRecord) (ni : NodeInfo)
    (hfind : db.nodes.find? (fun n => n.nodeId == nid) = some rec0)
    (hsnap : List.lookup nid snap = some ni) :
    get_node_record snap db (some nid) =
      .ok ({ db with nodes := db.nodes.map (fun n => if n.nodeId == nid
                 then { rec0 with lastHeard := datetime_fromtimestamp (ni.lastHeard.getD 0) }
                 else n) },
           { rec0 with lastHeard := datetime_fromtimestamp (ni.lastHeard.getD 0) }) :=
  get_node_record_existing_eq snap db nid rec0 ni hfind hsnap

/-- C4 witness: the record created as Alice/TBEAM at time 100 keeps
nodeName "Alice" and hwModel "TBEAM" when the snapshot later supplies
Bob/TLORA at time 200; only lastHeard becomes 200. -/
theorem c4_upsert_existing_changes_only_lastHeard_witness :
    get_node_record snapBob dbAlice (some "n1") =
      .ok ({ nodes := [{ nodeId := "n1", nodeName := "Alice", lastHeard := 200, hwModel := "TBEAM" }] },
           { nodeId := "n1", nodeName := "Alice", lastHeard := 200, hwModel := "TBEAM" }) := by
  have h := c4_upsert_existing_changes_only_lastHeard snapBob dbAlice "n1"
    { nodeId := "n1", nodeName := "Alice", lastHeard := 100, hwModel := "TBEAM" }
    { lastHeard := some 200
      user := some { id := some "n1", longName := some "Bob", hwModel := some "TLORA" } }
    rfl rfl
  exact h.trans (by rfl)

/-- C5 counterexample: an upsert CAN regress `lastHeard`. The store
holds "n1" with lastHeard 100, the snapshot supplies 50, and the
existing-record branch overwrites unconditionally (mesh.py line 471),
leaving 50 < 100. -/
theorem c5_upsert_lastHeard_regresses :
    (get_node_record snapN1old dbAlice (some "n1")).map (fun r => r.2.lastHeard) = .ok 50 ∧
    dbAlice.nodes.map (fun n => n.lastHeard) = [100] ∧ (50 : ℚ) < 100 := by
  refine ⟨rfl, rfl, by norm_num⟩

/-- C5 amended: an upsert on an existing record sets `lastHeard` to
exactly the supplied snapshot time, unconditionally; it is
non-decreasing only under the hypothesis that the supplied time is not
earlier than the stored one. -/
theorem c5_upsert_lastHeard_is_supplied (snap : Snapshot) (db : DBState) (nid : String)
    (rec0 : MeshtasticNodeRecord) (ni : NodeInfo)
    (hfind : db.nodes.find? (fun n => n.nodeId == nid) = some rec0)
    (hsnap : List.lookup nid snap = some ni)
    (hmono : rec0.lastHeard ≤ datetime_fromtimestamp (ni.lastHeard.getD 0)) :
    ∃ db1 rec1, get_node_record snap db (some nid) = .ok (db1, rec1) ∧
      rec1.lastHeard = datetime_fromtimestamp (ni.lastHeard.getD 0) ∧
      rec0.lastHeard ≤ rec1.lastHeard :=
  ⟨_, _, get_node_record_existing_eq snap db nid rec0 ni hfind hsnap, rfl, hmono⟩

/-- C5 amended witness: with stored time 100 and supplied time 200 the
updated record carries 200. -/
theorem c5_upsert_lastHeard_is_supplied_witness :
    (get_node_record snapBob dbAlice (some "n1")).map (fun r => r.2.lastHeard) = .ok 200 ∧
    (100 : ℚ) ≤ 200 := by
  obtain ⟨db1, rec1, heq, hlh, -⟩ := c5_upsert_lastHeard_is_supplied snapBob dbAlice "n1"
    { nodeId := "n1", nodeName := "Alice", lastHeard := 100, hwModel := "TBEAM" }
    { lastHeard := some 200
      user := some { id := some "n1", longName := some "Bob", hwModel := some "TLORA" } }
    rfl rfl (by norm_num [datetime_fromtimestamp])
  refine ⟨?_, by norm_num⟩
  rw [heq]
  simp only [Except.map, hlh]
  rfl

/-- C6 counterexample: the timestamp stored on a MessageRecord is the
wall clock at the moment of the write (`time.time()`, mesh.py line 488),
not the source packet's reported time: the same packet against the same
snapshot (whose reported lastHeard for "!abc" is 1000) stores datetime
2000 when written at wall-clock 2000 and 3000 when written at 3000. -/
theorem c6_message_timestamp_is_wallclock :
    (store_message snapAbc emptyDB 2000 packetHello).map
        (fun db => db.messages.map (fun m => m.datetime)) = .ok [2000] ∧
    (store_message snapAbc emptyDB 3000 packetHello).map
        (fun db => db.messages.map (fun m => m.datetime)) = .ok [3000] ∧
    (List.lookup "!abc" snapAbc).map (fun ni => ni.lastHeard) = some (some 1000) :=
  ⟨rfl, rfl, rfl⟩

/-- C6 amended: MessageRecord and LocationRecord timestamps are the
wall-clock time of the write (`datetime.fromtimestamp(time.time())`),
while the node record's `lastHeard` is the live snapshot's reported
`lastHeard` for the sender (default 0). -/
theorem c6_directory_timestamps (snap : Snapshot) (db : DBState) (now : ℚ) (p : Packet) :
    (∀ db1, store_message snap db now p = .ok db1 →
       db1.messages.map (fun m => m.datetime) =
         db.messages.map (fun m => m.datetime) ++ [datetime_fromtimestamp now]) ∧
    (∀ db1, store_location snap db now p = .ok db1 →
       db1.locations.map (fun l => l.datetime) =
         db.locations.map (fun l => l.datetime) ++ [datetime_fromtimestamp now]) ∧
    (∀ nid ni db1 rec1, List.lookup nid snap = some ni →
       get_node_record snap db (some nid) = .ok (db1, rec1) →
       rec1.lastHeard = datetime_fromtimestamp (ni.lastHeard.getD 0)) := by
  refine ⟨?_, ?_, ?_⟩
  · intro db1 h
    unfold store_message at h
    dsimp only at h
    cases hg : get_node_record snap db p.fromId with
    | error e =>
      rw [hg] at h
      simp only [Bind.bind, Except.bind] at h
      exact Except.noConfusion h
    | ok pr =>
      obtain ⟨dbx, recx⟩ := pr
      rw [hg] at h
      simp only [Bind.bind, Except.bind] at h
      split at h
      · exact Except.noConfusion h
      · cases h
        have hf := get_node_record_frame snap db p.fromId dbx recx hg
        simp [hf.1]
  · intro db1 h
    unfold store_location at h
    dsimp only at h
    cases hg : get_node_record snap db p.fromId with
    | error e =>
      rw [hg] at h
      simp only [Bind.bind, Except.bind] at h
      exact Except.noConfusion h
    | ok pr =>
      obtain ⟨dbx, recx⟩ := pr
      rw [hg] at h
      simp only [Bind.bind, Except.bind] at h
      cases h
      have hf := get_node_record_frame snap db p.fromId dbx recx hg
      simp [hf.2]
  · intro nid ni db1 rec1 hsnap h
    exact get_node_record_lastHeard_eq snap db nid ni db1 rec1 hsnap h

/-- C6 amended witness: writing "hello" at wall-clock 2000 appends a
message stamped 2000 (the snapshot reports 1000 for the sender). -/
theorem c6_directory_timestamps_witness :
    ({ nodes := [{ nodeId := "!abc", nodeName := "Abc", lastHeard := 1000, hwModel := "" }]
       messages := [{ datetime := 2000, message := "hello", node := some "!abc" }]
       locations := [] } : DBState).messages.map (fun m => m.datetime) =
      emptyDB.messages.map (fun m => m.datetime) ++ [datetime_fromtimestamp 2000] :=
  (c6_directory_timestamps snapAbc emptyDB 2000 packetHello).1 _ rfl

/-- C7 counterexample: the `/ping` probe is NOT addressed to the
requesting sender: `process_ping_command` passes
`MESHTASTIC_BROADCAST_ADDR` as the destination of its `sendData` call
(mesh.py lines 594-597), while the sender is "!abc". -/
theorem c7_ping_probe_goes_to_broadcast :
    process_meshtastic_command hav0 snapAbc packetPing =
      .ok [.sendData "test string" MESHTASTIC_BROADCAST_ADDR "REPLY_APP" true true] ∧
    packetPing.fromId = some "!abc" ∧ MESHTASTIC_BROADCAST_ADDR ≠ "!abc" :=
  ⟨rfl, rfl, by decide⟩

/-- C7 amended: every radio text reply produced by the command
processor (`/distance` lines and diagnostics, the unknown-command
reply) is addressed privately to the sender; the `/ping` probe is an
acknowledgement-requested `sendData` to the broadcast address; and no
command path produces a chat-service send. -/
theorem c7_command_reply_destinations (hav : ℚ → ℚ → ℚ → ℚ → ℚ) (snap : Snapshot)
    (p : Packet) (effs : List Effect)
    (h : process_meshtastic_command hav snap p = .ok effs) :
    effs.all (replyOk p.fromId) = true := by
  unfold process_meshtastic_command at h
  split at h
  · exact Except.noConfusion h
  · dsimp only at h
    rw [List.all_eq_true]
    split at h
    · cases h
      intro e he
      rcases process_distance_effects hav snap p e he with ⟨s, rfl⟩
      simp [replyOk]
    · split at h
      · cases h
        intro e he
        simp only [process_ping_command, List.mem_singleton] at he
        subst he
        simp [replyOk]
      · cases h
        intro e he
        simp only [List.mem_singleton] at he
        subst he
        simp [replyOk]

/-- C7 amended witness: the unknown-command reply of a concrete packet
goes to its sender. -/
theorem c7_command_reply_destinations_witness :
    process_meshtastic_command hav0 [] packetUnknown =
      .ok [.sendText "unknown command" (some "!abc")] ∧
    List.all [.sendText "unknown command" (some "!abc")] (replyOk packetUnknown.fromId) = true :=
  ⟨rfl, c7_command_reply_destinations hav0 [] packetUnknown _ rfl⟩

/-- C8: command dispatch is case-sensitive prefix matching over the
fixed table: any text beginning with "/distance" routes to the distance
handler, any text beginning with "/ping" (checked after "/distance")
routes to the ping handler, any other text beginning with "/" produces
exactly one private "unknown command" reply to the sender, and a
broadcast text beginning with "/" is never forwarded to the chat
service (mesh.py lines 599-616 and 648-653). -/
theorem c8_command_dispatch (hav : ℚ → ℚ → ℚ → ℚ → ℚ) (room : String)
    (snap : Snapshot) (db : DBState) (now : ℚ) (p : Packet) (d : Decoded)
    (hd : p.decoded = some d) :
    (pyStartsWith (d.text.getD "") "/distance" = true →
       process_meshtastic_command hav snap p = .ok (process_distance_command hav snap p)) ∧
    (pyStartsWith (d.text.getD "") "/distance" = false →
     pyStartsWith (d.text.getD "") "/ping" = true →
       process_meshtastic_command hav snap p = .ok process_ping_command) ∧
    (pyStartsWith (d.text.getD "") "/" = true →
     pyStartsWith (d.text.getD "") "/distance" = false →
     pyStartsWith (d.text.getD "") "/ping" = false →
       process_meshtastic_command hav snap p = .ok [.sendText "unknown command" p.fromId]) ∧
    (∀ db1 effs, on_receive hav room snap db now p = .ok (db1, effs) →
       pyStartsWith (d.text.getD "") "/" = true →
       effs.all noTelegram = true) := by
  refine ⟨?_, ?_, ?_, ?_⟩
  · intro h1
    unfold process_meshtastic_command
    rw [hd]
    dsimp only
    rw [h1]
    simp
  · intro h1 h2
    unfold process_meshtastic_command
    rw [hd]
    dsimp only
    rw [h1, h2]
    simp
  · intro h1 h2 h3
    unfold process_meshtastic_command
    rw [hd]
    dsimp only
    rw [h2, h3]
    simp
  · intro db1 effs h hs
    unfold on_receive at h
    split at h
    · cases h
      rfl
    · split at h
      · exact Except.noConfusion h
      · rename_i d' hd'
        rw [hd] at hd'
        cases Option.some.inj hd'
        dsimp only at h
        split at h
        · split at h
          · cases hsl : store_location snap db now p with
            | error e =>
              rw [hsl] at h
              simp only [Bind.bind, Except.bind] at h
              exact Except.noConfusion h
            | ok dbx =>
              rw [hsl] at h
              simp only [Bind.bind, Except.bind] at h
              cases h
              rfl
          · cases h
            rfl
        · cases hsm : store_message snap db now p with
          | error e =>
            rw [hsm] at h
            simp only [Bind.bind, Except.bind] at h
            exact Except.noConfusion h
          | ok dbx =>
            rw [hsm] at h
            simp only [Bind.bind, Except.bind] at h
            split at h
            · cases hpc : process_meshtastic_command hav snap p with
              | error e =>
                rw [hpc] at h
                simp only [Bind.bind, Except.bind] at h
                exact Except.noConfusion h
              | ok effs2 =>
                rw [hpc] at h
                simp only [Bind.bind, Except.bind] at h
                cases h
                exact pmc_no_telegram hav snap p _ hpc
            · split at h
              · exact Except.noConfusion h
              · cases hpc : process_meshtastic_command hav snap p with
                | error e =>
                  rw [hpc] at h
                  simp only [Bind.bind, Except.bind] at h
                  exact Except.noConfusion h
                | ok effs2 =>
                  rw [hpc] at h
                  simp only [Bind.bind, Except.bind] at h
                  cases h
                  exact pmc_no_telegram hav snap p _ hpc

/-- C8 witness: "/distance please" routes to the distance handler and
"/x" yields exactly the private unknown-command reply. -/
theorem c8_command_dispatch_witness :
    process_meshtastic_command hav0 [] packetDist =
      .ok (process_distance_command hav0 [] packetDist) ∧
    process_meshtastic_command hav0 [] packetUnknown =
      .ok [.sendText "unknown command" (some "!abc")] := by
  constructor
  · exact (c8_command_dispatch hav0 "room" [] emptyDB 0 packetDist _ rfl).1 (by decide)
  · exact (c8_command_dispatch hav0 "room" [] emptyDB 0 packetUnknown _ rfl).2.2.1
      (by decide) (by decide) (by decide)

/-- C9 counterexample: the geo utility's own validation checks only
`isinstance(_, tuple)` (mesh.py lines 52-55), not that the argument is
a two-element numeric pair: a three-element tuple is not a coordinate
pair, yet no `RuntimeError` is raised by the function — the call either
succeeds (if the external library accepts the tuples) or fails inside
the external library, not with the function's InvalidArgument-style
error. -/
theorem c9_geo_guard_checks_only_tupleness :
    isCoordPair tripleTuple = false ∧
    get_lat_lon_distance libHav0 tripleTuple pairTuple = .ok 0 ∧
    get_lat_lon_distance libStrict tripleTuple pairTuple = .error .libErr :=
  ⟨rfl, rfl, rfl⟩

/-- C9 amended: `get_lat_lon_distance` raises its own `RuntimeError`
("Tuple expected") exactly when at least one argument is not a tuple;
any pair of tuples — whatever their arity or element types — is passed
to the external haversine library, whose result (distance in meters, or
its own failure) is returned unchanged. The function is pure: its
embedding performs no effects. -/
theorem c9_geo_guard_iff_tuple (lib : List PyNum → List PyNum → Except Unit ℚ)
    (a b : PyObj) :
    ((get_lat_lon_distance lib a b = .error .tupleExpected1 ∨
      get_lat_lon_distance lib a b = .error .tupleExpected2) ↔
      ¬(isTuple a = true ∧ isTuple b = true)) ∧
    (∀ e1 e2, a = .tuple e1 → b = .tuple e2 →
       get_lat_lon_distance lib a b =
         match lib e1 e2 with
         | .ok dist => .ok dist
         | .error _ => .error .libErr) := by
  constructor
  · cases a with
    | nontuple => cases b <;> simp [get_lat_lon_distance, isTuple]
    | tuple e1 =>
      cases b with
      | nontuple => simp [get_lat_lon_distance, isTuple]
      | tuple e2 =>
        simp only [get_lat_lon_distance, isTuple]
        cases lib e1 e2 <;> simp
  · intro e1 e2 ha hb
    subst ha
    subst hb
    rfl

/-- C9 amended witness: a non-tuple first argument raises the
function's first tuple check; two coordinate pairs delegate to the
library. -/
theorem c9_geo_guard_iff_tuple_witness :
    (get_lat_lon_distance libHav0 PyObj.nontuple pairTuple = .error .tupleExpected1 ∨
     get_lat_lon_distance libHav0 PyObj.nontuple pairTuple = .error .tupleExpected2) ∧
    get_lat_lon_distance libHav0 pairTuple pairTuple = .ok 0 := by
  constructor
  · exact (c9_geo_guard_iff_tuple libHav0 .nontuple pairTuple).1.mpr (by decide)
  · exact (c9_geo_guard_iff_tuple libHav0 pairTuple pairTuple).2
      [.num 0, .num 0] [.num 0, .num 0] rfl rfl

/-- C10: when the `/distance` requester resolves in the snapshot with a
truthy position and nonzero latitude/longitude, but no snapshot entry
qualifies as a peer (truthy position, nonzero latitude and longitude,
truthy user record, user id different from the requester), the handler
sends nothing at all: no peer lines and no error diagnostic (mesh.py
lines 563-582, every loop iteration hits a `continue`). -/
theorem c10_distance_no_qualifying_peer_silent (hav : ℚ → ℚ → ℚ → ℚ → ℚ)
    (snap : Snapshot) (p : Packet) (fid : String) (ni : NodeInfo)
    (hfid : p.fromId = some fid)
    (hsnap : List.lookup fid snap = some ni)
    (hpos : (posGetD ni.position).truthy = true)
    (hlat : pyTruthyQ (posGetD ni.position).latitude = true)
    (hlon : pyTruthyQ (posGetD ni.position).longitude = true)
    (hall : ∀ k ni2, List.lookup k snap = some ni2 →
      qualifiesPeer p.fromId ni2 = false) :
    process_distance_command hav snap p = [] := by
  unfold process_distance_command nodesGet
  rw [hfid]
  simp only [Option.bind_eq_bind, Option.some_bind, hsnap]
  rw [if_neg (by simp [hpos])]
  rw [if_neg (by rw [hlat, hlon]; simp)]
  rw [List.filterMap_eq_nil_iff]
  intro k hk
  exact distance_loop_body_none_of_not_qualifies hav snap (some fid) _ _ k
    (fun ni2 hl => by rw [← hfid]; exact hall k ni2 hl)

/-- C10 witness: a snapshot containing only the requester (whose user
id equals the sender id) yields zero sends. -/
theorem c10_distance_no_qualifying_peer_silent_witness :
    process_distance_command hav0 snapSelf packetDist = [] := by
  apply c10_distance_no_qualifying_peer_silent hav0 snapSelf packetDist "!abc" niSelf
    rfl rfl (by decide) (by decide) (by decide)
  intro k ni2 hl
  simp only [snapSelf, List.lookup] at hl
  split at hl
  · cases Option.some.inj hl
    decide
  · exact Option.noConfusion hl

end MeshGateway
